import Mathlib

/-!
Verification of the magneto recording scheduler front end.

The embedding models `src/main.py` (`IndexView.post` and its `RecordForm`)
and `src/utils.py` (`remove_special_data`).  Wall-clock instants are
modelled as integers (seconds); `datetime` comparison and subtraction
become integer comparison and subtraction, and
`(end_date - begin_date).total_seconds()` becomes `end_date - begin_date`.
Side effects (`flash`, `self.recorder.record`) are modelled by the result
value of the handler, from which the list of flash messages and the list
of `record` invocations of each code path is read off.

The device registry and the job state machine live in `recorder.py`, which
is not part of the available source; those two definitions are modelled
from the spec (each marked `Modelled from the spec:`).
-/

namespace Magneto

/-- The parsed field values of `IndexView.RecordForm` (src/main.py lines
56-77): `adapter` and `channel` are `SelectField(coerce=int)`, the
`begin_date` field is `Optional`, `end_date` is `DataRequired`.  A missing
or unparsable date field is `none`. -/
structure RawForm where
  adapter : Nat
  channel : Nat
  program_name : String
  begin_date : Option Int
  end_date : Option Int
  shutdown : Bool
  deriving DecidableEq, Repr

/-- The argument tuple of the call
`self.recorder.record(adapter, channel, program_name, immediate,
begin_date, end_date, duration, shutdown)` (src/main.py lines 117-118). -/
structure RecordCall where
  adapter : Nat
  channel : String
  program_name : String
  immediate : Bool
  begin_date : Int
  end_date : Int
  duration : Int
  shutdown : Bool
  deriving DecidableEq, Repr

/-- The three validation-error messages assigned to `message` in
`IndexView.post` (src/main.py lines 101, 105, 109). -/
inductive Msg where
  /-- "La date de début doit être dans le futur." (line 101) -/
  | futureDate
  /-- "La date de début doit être antérieure à la date de fin." (line 105) -/
  | ordering
  /-- "La durée de l'enregistrement est trop longue." (line 109) -/
  | durationTooLong
  deriving DecidableEq, Repr

/-- Spec §7 classifies `InvalidWindow` as "ordering/future-date violation";
the duration message is the distinct `DurationExceeded` kind. -/
def isInvalidWindowMsg : Msg → Bool
  | Msg.futureDate => true
  | Msg.ordering => true
  | Msg.durationTooLong => false

/-- Outcome of one execution of `IndexView.post`:
`accepted` is the branch that calls `recorder.record` and redirects,
`rejected` the branch `if error: flash(danger, message)`, and
`formInvalid` the `else` branch of `form.validate()`. -/
inductive PostResult where
  | accepted (call : RecordCall)
  | rejected (m : Msg)
  | formInvalid
  deriving DecidableEq, Repr

/-- The flash messages emitted by `IndexView.post`: a danger flash with a
validation message (line 111), the danger flash "Le formulaire contient
des erreurs." (line 131), or the info flash with the schedule summary
(line 128). -/
inductive Flash where
  | danger (m : Msg)
  | dangerFormInvalid
  | info
  deriving DecidableEq, Repr

/-- wtforms `DataRequired` on a string field: fails when the value is
empty or whitespace-only (`not field.data or not field.data.strip()`). -/
def dataRequiredStr (s : String) : Bool :=
  !(s == "") && !(s.data.all Char.isWhitespace)

/-- wtforms `Length(min=5, max=128)` on the `program_name` field
(src/main.py line 61). -/
def programNameLengthOk (s : String) : Bool :=
  5 ≤ s.length && s.length ≤ 128

/-- `form.validate()` (src/main.py line 89) for the fields the claims
touch: the two `SelectField`s must hold one of the configured choices
(`adapters_choices` is `range(dvb_adapter_number)`, `channels_choices` is
`enumerate(get_channels())`, lines 82-83), `program_name` must pass
`DataRequired` and `Length(5,128)`, and `end_date` must be present
(`DataRequired`); `begin_date` is `Optional`. -/
def validateForm (channels : List String) (adapterCount : Nat) (form : RawForm) : Bool :=
  decide (form.adapter < adapterCount) &&
  decide (form.channel < channels.length) &&
  dataRequiredStr form.program_name &&
  programNameLengthOk form.program_name &&
  form.end_date.isSome

/-- The `error`/`message` accumulation of src/main.py lines 92-109, for
end date `e` and raw begin date `bopt`: `none` models `error = False`,
`some m` models `error = True` with `message = m`; a later check that
fires overwrites the message, exactly as the sequential assignments do. -/
def checkMsg (maxDuration now e : Int) (bopt : Option Int) : Option Msg :=
  let b := bopt.getD now
  let m1 : Option Msg :=
    match bopt with
    | none => none
    | some bd => if bd ≤ now then some Msg.futureDate else none
  let m2 : Option Msg := if b ≥ e then some Msg.ordering else m1
  let m3 : Option Msg := if e - b > maxDuration then some Msg.durationTooLong else m2
  m3

/-- The begin date actually used by the handler: the submitted one, or
`datetime.now()` when the field was empty (src/main.py lines 93-96). -/
def effBegin (now : Int) (form : RawForm) : Int :=
  form.begin_date.getD now

/-- The arguments of the `recorder.record` call built on the accepted
branch (src/main.py lines 113-118): `channel` is
`self.channels_choices[data["channel"]][1]`, i.e. the channel list entry
at the submitted index. -/
def acceptedCall (channels : List String) (now e : Int) (form : RawForm) : RecordCall :=
  { adapter := form.adapter
    channel := channels.getD form.channel ""
    program_name := form.program_name
    immediate := form.begin_date.isNone
    begin_date := effBegin now form
    end_date := e
    duration := e - effBegin now form
    shutdown := form.shutdown }

/-- `IndexView.post` (src/main.py lines 85-132).  `channels` is the
configured channel list, `adapterCount` is `dvb_adapter_number`,
`maxDuration` is `int(self.recorder.max_duration)` and `now` is
`datetime.now()` at handling time. -/
def post (channels : List String) (adapterCount : Nat) (maxDuration : Int)
    (now : Int) (form : RawForm) : PostResult :=
  if validateForm channels adapterCount form then
    match form.end_date with
    | none => PostResult.formInvalid
    | some e =>
      match checkMsg maxDuration now e form.begin_date with
      | some m => PostResult.rejected m
      | none => PostResult.accepted (acceptedCall channels now e form)
  else PostResult.formInvalid

/-- The `recorder.record` invocations performed on one code path of
`IndexView.post`: exactly one on the accepted branch, none otherwise. -/
def recordCalls : PostResult → List RecordCall
  | PostResult.accepted c => [c]
  | _ => []

/-- The flash messages emitted on one code path of `IndexView.post`:
each branch flashes exactly once (src/main.py lines 111, 128, 131). -/
def flashes : PostResult → List Flash
  | PostResult.accepted _ => [Flash.info]
  | PostResult.rejected m => [Flash.danger m]
  | PostResult.formInvalid => [Flash.dangerFormInvalid]

/-- The message of the last failing check in the fixed order future-date,
ordering, duration — the value left in `message` after lines 92-109 when
at least one check fails. -/
def lastFailMsg (maxDuration now e : Int) (form : RawForm) : Msg :=
  if e - effBegin now form > maxDuration then Msg.durationTooLong
  else if effBegin now form ≥ e then Msg.ordering
  else Msg.futureDate

/-- The future-date check fires (src/main.py lines 97-101): a begin date
was submitted and it is not in the future. -/
def failsFuture (now : Int) (form : RawForm) : Bool :=
  match form.begin_date with
  | none => false
  | some bd => decide (bd ≤ now)

/-- The ordering check fires (src/main.py lines 102-105):
`begin_date >= end_date` for the effective begin date. -/
def failsOrderingCheck (now e : Int) (form : RawForm) : Bool :=
  decide (effBegin now form ≥ e)

/-- The duration check fires (src/main.py lines 106-109):
`duration > int(max_duration)`. -/
def failsDurationCheck (maxDuration now e : Int) (form : RawForm) : Bool :=
  decide (e - effBegin now form > maxDuration)

/-- How many of the three validation checks fire on this request. -/
def numFails (maxDuration now e : Int) (form : RawForm) : Nat :=
  (if failsFuture now form then 1 else 0) +
  (if failsOrderingCheck now e form then 1 else 0) +
  (if failsDurationCheck maxDuration now e form then 1 else 0)

/-- `remove_special_data` (src/utils.py lines 20-22): `del dico["submit"]`
then `return dico`.  The dictionary is an association list; in-place
mutation is modelled by state passing, so the returned dictionary is the
argument's post-state.  `del` on a missing key raises `KeyError`, modelled
by `Except.error`. -/
def remove_special_data (dico : List (String × α)) : Except String (List (String × α)) :=
  match dico.lookup "submit" with
  | some _ => Except.ok (dico.filter (fun p => !(p.1 == "submit")))
  | none => Except.error "KeyError"

/-- Modelled from the spec: the device registry of §4.2, absent from the
available source (`recorder.py` is not in the repository snapshot).  A
reservation is an interval `[start, stop)` held against a device id. -/
structure Interval where
  device : Nat
  start : Int
  stop : Int
  deriving DecidableEq, Repr

/-- Modelled from the spec: the overlap test of §4.2 — `[a,b)` and `[c,d)`
conflict iff `a < d and c < b`. -/
def overlapb (a b c d : Int) : Bool :=
  decide (a < d) && decide (c < b)

/-- Result of `reserve`: either the interval was inserted, or `Conflict`;
both constructors carry the registry afterwards, so `conflict` returning
the registry unchanged expresses that no reservation is displaced. -/
inductive ReserveResult where
  | reserved (regs : List Interval)
  | conflict (regs : List Interval)
  deriving DecidableEq, Repr

/-- Modelled from the spec: `reserve(device, start, end)` of §4.2 —
atomically checks for overlap against all existing reservations on that
device and, if none, inserts the interval; otherwise `Conflict` and the
registry is left unchanged. -/
def reserve (regs : List Interval) (d : Nat) (s e : Int) : ReserveResult :=
  if regs.any (fun r => r.device == d && overlapb r.start r.stop s e) then
    ReserveResult.conflict regs
  else
    ReserveResult.reserved (⟨d, s, e⟩ :: regs)

/-- The job states of spec §4.4. -/
inductive JobState where
  | Pending
  | Armed
  | Recording
  | Completed
  | Failed
  | Rejected
  deriving DecidableEq, Repr

/-- Modelled from the spec: the `Pending` entry action of §4.4 — compute
`delay = start − now`; if `delay <= 0`, skip directly to launch
(`Recording`), otherwise arm a timer (`Armed`). -/
def stateAfterPending (start now : Int) : JobState :=
  if start - now ≤ 0 then JobState.Recording else JobState.Armed

/-- On a validated form the handler is decided by the `error`/`message`
accumulation. -/
lemma post_validated {channels : List String} {adapterCount : Nat}
    {maxDuration now e : Int} {form : RawForm}
    (hv : validateForm channels adapterCount form = true)
    (he : form.end_date = some e) :
    post channels adapterCount maxDuration now form =
      match checkMsg maxDuration now e form.begin_date with
      | some m => PostResult.rejected m
      | none => PostResult.accepted (acceptedCall channels now e form) := by
  simp [post, hv, he]

/-- If no check fires, the window is ordered and within the ceiling. -/
lemma checkMsg_none_bounds {maxDuration now e : Int} {bopt : Option Int}
    (h : checkMsg maxDuration now e bopt = none) :
    bopt.getD now < e ∧ e - bopt.getD now ≤ maxDuration := by
  unfold checkMsg at h
  cases bopt <;> simp at h <;> split_ifs at h <;> simp_all

/-- The accumulated message is `durationTooLong` exactly when the duration
check (the last one) fires. -/
lemma checkMsg_durationTooLong_iff {maxDuration now e : Int} {bopt : Option Int} :
    checkMsg maxDuration now e bopt = some Msg.durationTooLong ↔
      maxDuration < e - bopt.getD now := by
  unfold checkMsg
  cases bopt with
  | none => simp; omega
  | some bd => simp; split_ifs <;> simp_all <;> omega

/-- When at least one check fires, the accumulated message is the message
of the last firing check. -/
lemma checkMsg_of_fail {maxDuration now e : Int} {form : RawForm}
    (hfail : 1 ≤ numFails maxDuration now e form) :
    checkMsg maxDuration now e form.begin_date =
      some (lastFailMsg maxDuration now e form) := by
  unfold checkMsg lastFailMsg
  unfold numFails failsFuture failsOrderingCheck failsDurationCheck effBegin at *
  cases hb : form.begin_date <;> rw [hb] at hfail <;> simp [hb] at hfail ⊢ <;>
    split_ifs at hfail ⊢ <;> simp_all

/-- Dropping the `"submit"` entries makes `"submit"` absent. -/
lemma lookup_filter_submit_none {α : Type} (l : List (String × α)) :
    (l.filter (fun p => !(p.1 == "submit"))).lookup "submit" = none := by
  induction l with
  | nil => rfl
  | cons p t ih =>
    by_cases hp : p.1 = "submit"
    · simp [List.filter_cons, hp, ih]
    · have hne : ("submit" == p.1) = false := by
        simp only [beq_eq_false_iff_ne, ne_eq]
        exact fun h => hp h.symm
      simp [List.filter_cons, hp, List.lookup, hne, ih]

/-- Dropping the `"submit"` entries leaves every other key's binding
unchanged. -/
lemma lookup_filter_submit_other {α : Type} (l : List (String × α))
    (k : String) (hk : k ≠ "submit") :
    (l.filter (fun p => !(p.1 == "submit"))).lookup k = l.lookup k := by
  induction l with
  | nil => rfl
  | cons p t ih =>
    have hks : (k == "submit") = false := by simp [hk]
    by_cases hp : p.1 = "submit"
    · simp [List.filter_cons, hp, List.lookup, hks, ih]
    · by_cases hkp : k = p.1 <;> simp [List.filter_cons, hp, List.lookup, hkp, ih]

/-- C1: for every submitted request, acceptance — the handler reaching the
`recorder.record` call — implies `start < end` and
`end - start <= max_duration` for the recorded window. -/
theorem accepted_window_within_bounds
    (channels : List String) (adapterCount : Nat) (maxDuration now : Int)
    (form : RawForm) (call : RecordCall)
    (h : post channels adapterCount maxDuration now form = PostResult.accepted call) :
    call.begin_date < call.end_date ∧
      call.end_date - call.begin_date ≤ maxDuration := by
  by_cases hv : validateForm channels adapterCount form = true
  · cases he : form.end_date with
    | none => simp [post, hv, he] at h
    | some e =>
      rw [post_validated hv he] at h
      cases hc : checkMsg maxDuration now e form.begin_date with
      | some m => rw [hc] at h; simp at h
      | none =>
        rw [hc] at h
        simp at h
        have hb := checkMsg_none_bounds hc
        rw [← h]
        simp only [acceptedCall, effBegin]
        exact hb
  · have hv2 : validateForm channels adapterCount form = false := by
      simpa using hv
    simp [post, hv2] at h

theorem accepted_window_within_bounds_witness :
    (60 : Int) < 660 ∧ (660 : Int) - 60 ≤ 3600 :=
  accepted_window_within_bounds ["TF1"] 1 3600 0
    { adapter := 0, channel := 0, program_name := "abcde",
      begin_date := some 60, end_date := some 660, shutdown := false }
    { adapter := 0, channel := "TF1", program_name := "abcde",
      immediate := false, begin_date := 60, end_date := 660,
      duration := 600, shutdown := false }
    (by decide)

/-- C2: on one device, if a reservation request succeeds and a second
request with an overlapping `[start, stop)` window follows it, the second
is rejected with `Conflict` and the registry is unchanged — the first
reservation is not displaced, and no job is recorded for the second
request. -/
theorem reserve_second_overlap_conflict
    (regs regs1 : List Interval) (d : Nat) (s1 e1 s2 e2 : Int)
    (hfirst : reserve regs d s1 e1 = ReserveResult.reserved regs1)
    (hov1 : s1 < e2) (hov2 : s2 < e1) :
    reserve regs1 d s2 e2 = ReserveResult.conflict regs1 := by
  unfold reserve at hfirst
  split at hfirst
  · exact absurd hfirst (by simp)
  · injection hfirst with h1
    subst h1
    simp [reserve, overlapb, hov1, hov2]

theorem reserve_second_overlap_conflict_witness :
    reserve [⟨3, 0, 100⟩] 3 50 150 = ReserveResult.conflict [⟨3, 0, 100⟩] :=
  reserve_second_overlap_conflict [] [⟨3, 0, 100⟩] 3 0 100 50 150
    (by decide) (by decide) (by decide)

/-- C3, counterexample: a non-immediate request whose start (0) is not
after submission time (`now = 0`) but whose duration (100 s) also exceeds
`max_duration` (10 s) is rejected with the `DurationExceeded` message, not
an `InvalidWindow` one — the later check overwrote `message`. -/
theorem past_start_message_overwritten_cex :
    post ["TF1"] 1 10 0
        { adapter := 0, channel := 0, program_name := "abcde",
          begin_date := some 0, end_date := some 100, shutdown := false } =
      PostResult.rejected Msg.durationTooLong ∧
    isInvalidWindowMsg Msg.durationTooLong = false ∧
    (0 : Int) ≤ 0 :=
  ⟨by decide, by decide, by decide⟩

/-- C3, amended: a non-immediate request with `start ≤ now` is rejected
and `recorder.record` is not invoked; the reported message is an
`InvalidWindow` one (future-date or ordering) whenever the duration check
does not also fire, but when it does, its `DurationExceeded` message is
the one reported. -/
theorem past_start_rejected
    (channels : List String) (adapterCount : Nat)
    (maxDuration now e bd : Int) (form : RawForm)
    (hv : validateForm channels adapterCount form = true)
    (he : form.end_date = some e)
    (hb : form.begin_date = some bd)
    (hle : bd ≤ now) :
    post channels adapterCount maxDuration now form =
        PostResult.rejected (lastFailMsg maxDuration now e form) ∧
      recordCalls (post channels adapterCount maxDuration now form) = [] ∧
      (e - bd ≤ maxDuration →
        isInvalidWindowMsg (lastFailMsg maxDuration now e form) = true) := by
  have hfail : 1 ≤ numFails maxDuration now e form := by
    unfold numFails failsFuture
    rw [hb]
    simp [hle]
    split_ifs <;> omega
  rw [post_validated hv he, checkMsg_of_fail hfail]
  refine ⟨rfl, rfl, ?_⟩
  intro hdur
  unfold lastFailMsg effBegin
  rw [hb]
  simp only [Option.getD_some]
  split_ifs with h1 h2
  · exact absurd h1 (by omega)
  · rfl
  · rfl

theorem past_start_rejected_witness :
    post ["TF1"] 1 3600 10
        { adapter := 0, channel := 0, program_name := "abcde",
          begin_date := some 5, end_date := some 100, shutdown := false } =
      PostResult.rejected
        (lastFailMsg 3600 10 100
          { adapter := 0, channel := 0, program_name := "abcde",
            begin_date := some 5, end_date := some 100, shutdown := false }) ∧
    recordCalls
        (post ["TF1"] 1 3600 10
          { adapter := 0, channel := 0, program_name := "abcde",
            begin_date := some 5, end_date := some 100, shutdown := false }) = [] ∧
    ((100 : Int) - 5 ≤ 3600 →
      isInvalidWindowMsg
        (lastFailMsg 3600 10 100
          { adapter := 0, channel := 0, program_name := "abcde",
            begin_date := some 5, end_date := some 100, shutdown := false }) = true) :=
  past_start_rejected ["TF1"] 1 3600 10 100 5
    { adapter := 0, channel := 0, program_name := "abcde",
      begin_date := some 5, end_date := some 100, shutdown := false }
    (by decide) rfl rfl (by decide)

/-- C4: a request without a start instant is treated as immediate — it can
never be rejected by the future-date check, and when it is accepted the
recorded job has `immediate = true`, its start is the submission time, and
the spec's `Pending` entry action sends it directly to `Recording` with no
armed delay. -/
theorem immediate_request_direct_launch
    (channels : List String) (adapterCount : Nat) (maxDuration now : Int)
    (form : RawForm)
    (hb : form.begin_date = none) :
    post channels adapterCount maxDuration now form ≠
        PostResult.rejected Msg.futureDate ∧
      ∀ call, post channels adapterCount maxDuration now form =
          PostResult.accepted call →
        call.immediate = true ∧ call.begin_date = now ∧
          stateAfterPending call.begin_date now = JobState.Recording := by
  constructor
  · intro h
    by_cases hv : validateForm channels adapterCount form = true
    · cases he : form.end_date with
      | none => simp [post, hv, he] at h
      | some e =>
        rw [post_validated hv he, hb] at h
        unfold checkMsg at h
        simp at h
        split_ifs at h <;> simp_all
    · have hv2 : validateForm channels adapterCount form = false := by
        simpa using hv
      simp [post, hv2] at h
  · intro call h
    by_cases hv : validateForm channels adapterCount form = true
    · cases he : form.end_date with
      | none => simp [post, hv, he] at h
      | some e =>
        rw [post_validated hv he] at h
        cases hc : checkMsg maxDuration now e form.begin_date with
        | some m => rw [hc] at h; simp at h
        | none =>
          rw [hc] at h
          simp at h
          rw [← h]
          simp [acceptedCall, effBegin, hb, stateAfterPending]
    · have hv2 : validateForm channels adapterCount form = false := by
        simpa using hv
      simp [post, hv2] at h

theorem immediate_request_direct_launch_witness :
    (post ["TF1"] 1 3600 100
        { adapter := 0, channel := 0, program_name := "abcde",
          begin_date := none, end_date := some 200, shutdown := false } ≠
      PostResult.rejected Msg.futureDate) ∧
    (({ adapter := 0, channel := "TF1", program_name := "abcde",
        immediate := true, begin_date := 100, end_date := 200,
        duration := 100, shutdown := false } : RecordCall).immediate = true ∧
      ({ adapter := 0, channel := "TF1", program_name := "abcde",
         immediate := true, begin_date := 100, end_date := 200,
         duration := 100, shutdown := false } : RecordCall).begin_date = 100 ∧
      stateAfterPending
        ({ adapter := 0, channel := "TF1", program_name := "abcde",
           immediate := true, begin_date := 100, end_date := 200,
           duration := 100, shutdown := false } : RecordCall).begin_date 100 =
        JobState.Recording) :=
  ⟨(immediate_request_direct_launch ["TF1"] 1 3600 100
      { adapter := 0, channel := 0, program_name := "abcde",
        begin_date := none, end_date := some 200, shutdown := false } rfl).1,
    (immediate_request_direct_launch ["TF1"] 1 3600 100
      { adapter := 0, channel := 0, program_name := "abcde",
        begin_date := none, end_date := some 200, shutdown := false } rfl).2
      { adapter := 0, channel := "TF1", program_name := "abcde",
        immediate := true, begin_date := 100, end_date := 200,
        duration := 100, shutdown := false } (by decide)⟩

/-- C5: when the effective start is not before the end — the zero-length
case included — the request is rejected with the ordering message (an
`InvalidWindow` reason) and `recorder.record` is not invoked; this needs
the configured ceiling to be nonnegative, so that the duration check
cannot fire on a nonpositive duration and overwrite the message. -/
theorem start_ge_end_rejected
    (channels : List String) (adapterCount : Nat) (maxDuration now e : Int)
    (form : RawForm)
    (hmax : 0 ≤ maxDuration)
    (hv : validateForm channels adapterCount form = true)
    (he : form.end_date = some e)
    (hge : e ≤ effBegin now form) :
    post channels adapterCount maxDuration now form =
        PostResult.rejected Msg.ordering ∧
      isInvalidWindowMsg Msg.ordering = true ∧
      recordCalls (post channels adapterCount maxDuration now form) = [] := by
  have hc : checkMsg maxDuration now e form.begin_date = some Msg.ordering := by
    unfold checkMsg
    unfold effBegin at hge
    cases hb : form.begin_date <;> rw [hb] at hge <;> simp at hge ⊢ <;>
      split_ifs <;> simp_all <;> omega
  rw [post_validated hv he, hc]
  exact ⟨rfl, rfl, rfl⟩

theorem start_ge_end_rejected_witness :
    post ["TF1"] 1 3600 0
        { adapter := 0, channel := 0, program_name := "abcde",
          begin_date := some 5, end_date := some 5, shutdown := false } =
      PostResult.rejected Msg.ordering ∧
    isInvalidWindowMsg Msg.ordering = true ∧
    recordCalls
        (post ["TF1"] 1 3600 0
          { adapter := 0, channel := 0, program_name := "abcde",
            begin_date := some 5, end_date := some 5, shutdown := false }) = [] :=
  start_ge_end_rejected ["TF1"] 1 3600 0 5
    { adapter := 0, channel := 0, program_name := "abcde",
      begin_date := some 5, end_date := some 5, shutdown := false }
    (by decide) (by decide) rfl (by decide)

/-- C6: the handler computes the duration as `end - start` (the accepted
call's `duration` argument is exactly `end_date - begin_date`), and a
validated request is rejected with the `DurationExceeded` message exactly
when that duration strictly exceeds `max_duration`; a duration equal to
the ceiling is not rejected by this check. -/
theorem duration_check_iff
    (channels : List String) (adapterCount : Nat) (maxDuration now e : Int)
    (form : RawForm)
    (hv : validateForm channels adapterCount form = true)
    (he : form.end_date = some e) :
    ((post channels adapterCount maxDuration now form =
        PostResult.rejected Msg.durationTooLong) ↔
      maxDuration < e - effBegin now form) ∧
    ∀ call, post channels adapterCount maxDuration now form =
        PostResult.accepted call →
      call.duration = call.end_date - call.begin_date := by
  rw [post_validated hv he]
  constructor
  · constructor
    · intro h
      cases hc : checkMsg maxDuration now e form.begin_date with
      | some m =>
        rw [hc] at h
        simp at h
        subst h
        unfold effBegin
        exact checkMsg_durationTooLong_iff.mp hc
      | none => rw [hc] at h; simp at h
    · intro h
      have hc : checkMsg maxDuration now e form.begin_date =
          some Msg.durationTooLong := by
        apply checkMsg_durationTooLong_iff.mpr
        unfold effBegin at h
        exact h
      rw [hc]
  · intro call h
    cases hc : checkMsg maxDuration now e form.begin_date with
    | some m => rw [hc] at h; simp at h
    | none =>
      rw [hc] at h
      simp at h
      rw [← h]
      simp [acceptedCall]

theorem duration_check_iff_witness :
    ((post ["TF1"] 1 3600 0
        { adapter := 0, channel := 0, program_name := "abcde",
          begin_date := some 10, end_date := some 7210, shutdown := false } =
      PostResult.rejected Msg.durationTooLong) ↔
      (3600 : Int) < 7210 - effBegin 0
        { adapter := 0, channel := 0, program_name := "abcde",
          begin_date := some 10, end_date := some 7210, shutdown := false }) ∧
    ({ adapter := 0, channel := "TF1", program_name := "abcde",
       immediate := false, begin_date := 60, end_date := 660,
       duration := 600, shutdown := false } : RecordCall).duration =
      ({ adapter := 0, channel := "TF1", program_name := "abcde",
         immediate := false, begin_date := 60, end_date := 660,
         duration := 600, shutdown := false } : RecordCall).end_date -
        ({ adapter := 0, channel := "TF1", program_name := "abcde",
           immediate := false, begin_date := 60, end_date := 660,
           duration := 600, shutdown := false } : RecordCall).begin_date :=
  ⟨(duration_check_iff ["TF1"] 1 3600 0 7210
      { adapter := 0, channel := 0, program_name := "abcde",
        begin_date := some 10, end_date := some 7210, shutdown := false }
      (by decide) rfl).1,
    (duration_check_iff ["TF1"] 1 3600 0 660
      { adapter := 0, channel := 0, program_name := "abcde",
        begin_date := some 60, end_date := some 660, shutdown := false }
      (by decide) rfl).2
      { adapter := 0, channel := "TF1", program_name := "abcde",
        immediate := false, begin_date := 60, end_date := 660,
        duration := 600, shutdown := false } (by decide)⟩

/-- C7: a validated request on which some validation check fires is
rejected with the accumulated message only: `recorder.record` is not
invoked (so no reservation or timer is ever created for it) and the
caller receives exactly one danger flash carrying the reason. -/
theorem rejection_no_side_effects
    (channels : List String) (adapterCount : Nat) (maxDuration now e : Int)
    (form : RawForm)
    (hv : validateForm channels adapterCount form = true)
    (he : form.end_date = some e)
    (hfail : 1 ≤ numFails maxDuration now e form) :
    post channels adapterCount maxDuration now form =
        PostResult.rejected (lastFailMsg maxDuration now e form) ∧
      recordCalls (post channels adapterCount maxDuration now form) = [] ∧
      flashes (post channels adapterCount maxDuration now form) =
        [Flash.danger (lastFailMsg maxDuration now e form)] := by
  rw [post_validated hv he, checkMsg_of_fail hfail]
  exact ⟨rfl, rfl, rfl⟩

theorem rejection_no_side_effects_witness :
    post ["TF1"] 1 3600 0
        { adapter := 0, channel := 0, program_name := "abcde",
          begin_date := some 5, end_date := some 5, shutdown := false } =
      PostResult.rejected
        (lastFailMsg 3600 0 5
          { adapter := 0, channel := 0, program_name := "abcde",
            begin_date := some 5, end_date := some 5, shutdown := false }) ∧
    recordCalls
        (post ["TF1"] 1 3600 0
          { adapter := 0, channel := 0, program_name := "abcde",
            begin_date := some 5, end_date := some 5, shutdown := false }) = [] ∧
    flashes
        (post ["TF1"] 1 3600 0
          { adapter := 0, channel := 0, program_name := "abcde",
            begin_date := some 5, end_date := some 5, shutdown := false }) =
      [Flash.danger
        (lastFailMsg 3600 0 5
          { adapter := 0, channel := 0, program_name := "abcde",
            begin_date := some 5, end_date := some 5, shutdown := false })] :=
  rejection_no_side_effects ["TF1"] 1 3600 0 5
    { adapter := 0, channel := 0, program_name := "abcde",
      begin_date := some 5, end_date := some 5, shutdown := false }
    (by decide) rfl (by decide)

/-- C8: `program_name` must be 5 to 128 characters — a form whose program
name is shorter or longer fails `form.validate()`, so the handler takes
the form-error branch and `recorder.record` is not invoked. -/
theorem program_name_length_fails_validation
    (channels : List String) (adapterCount : Nat) (maxDuration now : Int)
    (form : RawForm)
    (hlen : form.program_name.length < 5 ∨ 128 < form.program_name.length) :
    validateForm channels adapterCount form = false ∧
      post channels adapterCount maxDuration now form = PostResult.formInvalid ∧
      recordCalls (post channels adapterCount maxDuration now form) = [] := by
  have hpn : programNameLengthOk form.program_name = false := by
    unfold programNameLengthOk
    rcases hlen with h | h
    · have h5 : ¬ (5 ≤ form.program_name.length) := by omega
      simp [h5]
    · have h128 : ¬ (form.program_name.length ≤ 128) := by omega
      simp [h128]
  have hv : validateForm channels adapterCount form = false := by
    unfold validateForm
    simp [hpn]
  exact ⟨hv, by simp [post, hv], by simp [post, hv, recordCalls]⟩

theorem program_name_length_fails_validation_witness :
    validateForm ["TF1"] 1
        { adapter := 0, channel := 0, program_name := "abc",
          begin_date := none, end_date := some 200, shutdown := false } = false ∧
    post ["TF1"] 1 3600 0
        { adapter := 0, channel := 0, program_name := "abc",
          begin_date := none, end_date := some 200, shutdown := false } =
      PostResult.formInvalid ∧
    recordCalls
        (post ["TF1"] 1 3600 0
          { adapter := 0, channel := 0, program_name := "abc",
            begin_date := none, end_date := some 200, shutdown := false }) = [] :=
  program_name_length_fails_validation ["TF1"] 1 3600 0
    { adapter := 0, channel := 0, program_name := "abc",
      begin_date := none, end_date := some 200, shutdown := false }
    (Or.inl (by decide))

/-- C9: when more than one of the checks — future-date, ordering, duration,
evaluated in that fixed order — fires for the same request, exactly one
danger flash is reported, and its message is that of the last firing
check: the later assignments to `message` overwrite the earlier ones. -/
theorem last_failing_message_reported
    (channels : List String) (adapterCount : Nat) (maxDuration now e : Int)
    (form : RawForm)
    (hv : validateForm channels adapterCount form = true)
    (he : form.end_date = some e)
    (h2 : 2 ≤ numFails maxDuration now e form) :
    post channels adapterCount maxDuration now form =
        PostResult.rejected (lastFailMsg maxDuration now e form) ∧
      flashes (post channels adapterCount maxDuration now form) =
        [Flash.danger (lastFailMsg maxDuration now e form)] := by
  have h1 : 1 ≤ numFails maxDuration now e form := by omega
  rw [post_validated hv he, checkMsg_of_fail h1]
  exact ⟨rfl, rfl⟩

theorem last_failing_message_reported_witness :
    post ["TF1"] 1 10 0
        { adapter := 0, channel := 0, program_name := "abcde",
          begin_date := some 0, end_date := some 100, shutdown := false } =
      PostResult.rejected
        (lastFailMsg 10 0 100
          { adapter := 0, channel := 0, program_name := "abcde",
            begin_date := some 0, end_date := some 100, shutdown := false }) ∧
    flashes
        (post ["TF1"] 1 10 0
          { adapter := 0, channel := 0, program_name := "abcde",
            begin_date := some 0, end_date := some 100, shutdown := false }) =
      [Flash.danger
        (lastFailMsg 10 0 100
          { adapter := 0, channel := 0, program_name := "abcde",
            begin_date := some 0, end_date := some 100, shutdown := false })] :=
  last_failing_message_reported ["TF1"] 1 10 0 100
    { adapter := 0, channel := 0, program_name := "abcde",
      begin_date := some 0, end_date := some 100, shutdown := false }
    (by decide) rfl (by decide)

/-- C10: on a dictionary that contains the key `"submit"`,
`remove_special_data` succeeds and returns the mutated dictionary itself —
`"submit"` is gone and every other key keeps its original binding.
In-place mutation is modelled by state passing, so the returned value is
the argument's post-state. -/
theorem remove_special_data_spec
    {α : Type} (dico : List (String × α)) (v : α)
    (h : dico.lookup "submit" = some v) :
    remove_special_data dico =
        Except.ok (dico.filter (fun p => !(p.1 == "submit"))) ∧
      (dico.filter (fun p => !(p.1 == "submit"))).lookup "submit" = none ∧
      ∀ k, k ≠ "submit" →
        (dico.filter (fun p => !(p.1 == "submit"))).lookup k = dico.lookup k := by
  refine ⟨?_, lookup_filter_submit_none dico,
    fun k hk => lookup_filter_submit_other dico k hk⟩
  unfold remove_special_data
  rw [h]

theorem remove_special_data_spec_witness :
    remove_special_data [("submit", (1 : Nat)), ("channel", 2)] =
        Except.ok [("channel", (2 : Nat))] ∧
      ([("submit", (1 : Nat)), ("channel", 2)].filter
          (fun p => !(p.1 == "submit"))).lookup "submit" = none ∧
      ([("submit", (1 : Nat)), ("channel", 2)].filter
          (fun p => !(p.1 == "submit"))).lookup "channel" =
        [("submit", (1 : Nat)), ("channel", 2)].lookup "channel" :=
  ⟨(remove_special_data_spec [("submit", (1 : Nat)), ("channel", 2)] 1
      (by decide)).1,
    (remove_special_data_spec [("submit", (1 : Nat)), ("channel", 2)] 1
      (by decide)).2.1,
    (remove_special_data_spec [("submit", (1 : Nat)), ("channel", 2)] 1
      (by decide)).2.2 "channel" (by decide)⟩

end Magneto
